import Mathlib

/-!
Shallow embedding of src/fp/fp.py (class FreeProxy).

Python dicts that represent proxies become the structure `Proxy`; the
FreeProxy instance attributes become the structure `FreeProxy` (the field
`country_id` is the only attribute the code ever mutates, so the stateful
methods are modelled as state transformers returning the new instance).
The network is modelled by a `World` value: the raw, already-decoded
responses of the three providers, the random draws used by
`random.shuffle`, and the outcome of a liveness probe per proxy address.
A `none` response stands for any `requests.exceptions.RequestException`
path (network failure, non-2xx raised by `raise_for_status`, or a body
that `response.json()` cannot decode).

Exceptions (`FreeProxyException`) are modelled as `Except.error` carrying
the exact message string raised by the source. The bounded recursion on
the `repeat` flag is encoded structurally: `repeat=False` corresponds to
`retriesLeft = 1` and `repeat=True` to `retriesLeft = 0`, so
`get_proxy_list w rep s = get_proxy_list_go w (if rep then 0 else 1) s`.
Besides the Python return value, the transformers also return observable
instrumentation: the number of body invocations performed (to make the
retry visible) and, for `get`, the ordered list of proxy addresses that
were probed.
-/

namespace FP

/-- One normalized proxy record, the dict shape built by all three fetchers. -/
structure Proxy where
  ip : String
  port : String
  country : String
  anonymity : String
  google : Bool
  https : Bool
  protocol : String
deriving Repr, DecidableEq

/-- The attributes set in FreeProxy.__init__ (schema is precomputed there). -/
structure FreeProxy where
  country_id : Option (List String)
  timeout : Nat
  random : Bool
  anonym : Bool
  elite : Bool
  google : Option Bool
  schema : String
deriving Repr, DecidableEq

/-- FreeProxy.__init__: schema is "https" iff the https flag is set. -/
def FreeProxy.init (country_id : Option (List String)) (timeout : Nat)
    (rand : Bool) (anonym : Bool) (elite : Bool) (google : Option Bool)
    (https : Bool) : FreeProxy :=
  { country_id := country_id, timeout := timeout, random := rand,
    anonym := anonym, elite := elite, google := google,
    schema := if https then "https" else "http" }

/-- Python truthiness of the country_id attribute: None and the empty list
are falsy, a non-empty list is truthy. -/
def truthyCountry : Option (List String) → Bool
  | none => false
  | some l => !l.isEmpty

/-- The google guard in FreeProxy._criteria: active when self.google is not
None, and rejects when the record value differs from the required one. -/
def googleMismatch : Option Bool → Bool → Bool
  | none, _ => false
  | some g, pg => pg != g

/-- FreeProxy._criteria: the chain of early-return guards of the source,
one if per guard, returning False on the first failing guard. -/
def FreeProxy.criteria (s : FreeProxy) (proxy : Proxy) : Bool :=
  if truthyCountry s.country_id && !((s.country_id.getD []).contains proxy.country) then
    false
  else if s.anonym && s.elite && !(proxy.anonymity == "elite") then
    false
  else if s.anonym && !s.elite && !(["anonymous", "elite"].contains proxy.anonymity) then
    false
  else if googleMismatch s.google proxy.google then
    false
  else if s.schema == "https" && !proxy.https then
    false
  else
    true

/-- Spec sub-predicate 1 (country): if the country set is non-empty then
the record country is a member of it. -/
def CountryPred (s : FreeProxy) (p : Proxy) : Prop :=
  truthyCountry s.country_id = true → p.country ∈ s.country_id.getD []

/-- Spec sub-predicate 2 (anonymity): if requireAnonymous then elite when
requireElite, else anonymous or elite. -/
def AnonymityPred (s : FreeProxy) (p : Proxy) : Prop :=
  s.anonym = true →
    (if s.elite then p.anonymity = "elite"
     else p.anonymity = "anonymous" ∨ p.anonymity = "elite")

/-- Spec sub-predicate 3 (google): if the requirement is set, the record
flag equals it exactly. -/
def GooglePred (s : FreeProxy) (p : Proxy) : Prop :=
  ∀ g, s.google = some g → p.google = g

/-- Spec sub-predicate 4 (scheme): if the configured scheme is https, the
record must support https. -/
def HttpsPred (s : FreeProxy) (p : Proxy) : Prop :=
  s.schema = "https" → p.https = true

/-- Python str.lower, modelled character-wise over the underlying
character list (same semantics as String.toLower, stated this way so that
it reduces inside the kernel). -/
def pyLower (s : String) : String :=
  String.mk (s.data.map Char.toLower)

/-- One element of the "data" array of the GeoNode JSON response, with the
item.get defaults already applied for missing keys. -/
structure GeonodeItem where
  ip : String
  port : String
  country : String
  anonymityLevel : String
  google : Bool
  protocols : List String
deriving Repr, DecidableEq

/-- The per-item dict built in FreeProxy._get_proxies_from_geonode. -/
def parseGeonodeItem (item : GeonodeItem) : Proxy :=
  let httpsFlag := (item.protocols.map (fun proto => pyLower proto)).contains "https"
  { ip := item.ip, port := item.port, country := item.country,
    anonymity := pyLower item.anonymityLevel, google := item.google,
    https := httpsFlag,
    protocol := if httpsFlag then "https" else "http" }

/-- FreeProxy._get_proxies_from_geonode: a RequestException (none) is
swallowed and yields the empty list; otherwise every item is mapped. -/
def get_proxies_from_geonode : Option (List GeonodeItem) → List Proxy
  | none => []
  | some items => items.map parseGeonodeItem

/-- One element of the "proxies" array of the ProxyScrape JSON response,
with the item.get defaults already applied (country is the nested
ip_data.country). -/
structure ProxyscrapeItem where
  protocol : String
  ip : String
  port : String
  ipDataCountry : String
  anonymity : String
  ssl : Bool
deriving Repr, DecidableEq

/-- The per-item dict built in FreeProxy._get_proxies_from_proxyscrape:
the protocol is the lowercased source value taken verbatim. -/
def parseProxyscrapeItem (item : ProxyscrapeItem) : Proxy :=
  let protocol := pyLower item.protocol
  { ip := item.ip, port := item.port, country := item.ipDataCountry,
    anonymity := pyLower item.anonymity, google := item.ssl,
    https := protocol == "https",
    protocol := protocol }

/-- FreeProxy._get_proxies_from_proxyscrape: a RequestException (none) is
swallowed and yields the empty list; otherwise every item is mapped. -/
def get_proxies_from_proxyscrape : Option (List ProxyscrapeItem) → List Proxy
  | none => []
  | some items => items.map parseProxyscrapeItem

/-- One tr row of the scraped HTML table, as the text content of its
cells (the code reads cells 0, 1, 2, 4, 5 and 6). -/
structure WebsiteRow where
  cell0 : String
  cell1 : String
  cell2 : String
  cell3 : String
  cell4 : String
  cell5 : String
  cell6 : String
deriving Repr, DecidableEq

/-- The per-row dict built in FreeProxy._get_proxies_from_websites. -/
def parseWebsiteRow (tr : WebsiteRow) : Proxy :=
  let httpsFlag := pyLower tr.cell6.trim == "yes"
  { ip := tr.cell0.trim, port := tr.cell1.trim, country := tr.cell2.trim,
    anonymity := pyLower tr.cell4.trim,
    google := pyLower tr.cell5.trim == "yes",
    https := httpsFlag,
    protocol := if httpsFlag then "https" else "http" }

/-- FreeProxy._get_proxies_from_websites: a RequestException (none) is NOT
swallowed here; it is re-raised as a FreeProxyException. On success the
header row is skipped and the remaining rows are mapped. -/
def get_proxies_from_websites : Option (List WebsiteRow) → Except String (List Proxy)
  | none => Except.error "Request to website failed"
  | some trElements => Except.ok ((trElements.drop 1).map parseWebsiteRow)

/-- The external world of one run: the decoded provider responses (none
standing for any RequestException path), the draws consumed by
random.shuffle (draw i is used with bound i + 1), and the probe outcome
per proxy address. The websitePage field is the response of the
HTML-scraping provider; the aggregation in get_proxy_list never reads it
because the corresponding call is commented out in the source. -/
structure World where
  geonode : Option (List GeonodeItem)
  proxyscrape : Option (List ProxyscrapeItem)
  websitePage : Option (List WebsiteRow)
  rand : Nat → Nat
  probe : String → Bool

/-- One fetch round of get_proxy_list: GeoNode output then ProxyScrape
output, concatenated in the order of the two extend calls. -/
def fetchRound (w : World) : List Proxy :=
  get_proxies_from_geonode w.geonode ++ get_proxies_from_proxyscrape w.proxyscrape

/-- A single Fisher-Yates style swap of random.shuffle, guarded on the
array bounds (the source indices are always in bounds). -/
def swapCells (a : Array Proxy) (i j : Nat) : Array Proxy :=
  if h1 : i < a.size then
    if h2 : j < a.size then a.swap ⟨i, h1⟩ ⟨j, h2⟩ else a
  else a

/-- The loop of random.shuffle: for i from len - 1 down to 1, swap
position i with a uniformly drawn position j ≤ i. -/
def shuffleGo (rand : Nat → Nat) : Array Proxy → Nat → Array Proxy
  | a, 0 => a
  | a, Nat.succ i => shuffleGo rand (swapCells a (i + 1) (rand (i + 1) % (i + 2))) i

/-- random.shuffle on a list, with the draws taken from the given stream. -/
def shuffle (rand : Nat → Nat) (l : List Proxy) : List Proxy :=
  (shuffleGo rand (List.toArray l) (l.length - 1)).toList

/-- FreeProxy.get_proxy_list with the repeat flag encoded as the number of
retries still allowed (repeat=False is 1, repeat=True is 0). Returns the
Python result, the new instance state, and the number of body
invocations performed (1 without, 2 with the widen retry). -/
def get_proxy_list_go (w : World) : Nat → FreeProxy → Except String (List Proxy) × FreeProxy × Nat
  | retriesLeft, s =>
    let proxy_list := fetchRound w
    if proxy_list.isEmpty then
      (Except.error "Failed to retrieve any proxies from all sources.", s, 1)
    else
      let filtered_proxies := proxy_list.filter (fun proxy => s.criteria proxy)
      if filtered_proxies.isEmpty then
        match retriesLeft with
        | Nat.succ n =>
          let r := get_proxy_list_go w n { s with country_id := none }
          (r.1, r.2.1, r.2.2 + 1)
        | Nat.zero =>
          (Except.error "No proxies found matching the specified criteria.", s, 1)
      else
        if s.random then (Except.ok (shuffle w.rand filtered_proxies), s, 1)
        else (Except.ok filtered_proxies, s, 1)

/-- FreeProxy.get_proxy_list on the Boolean repeat flag of the source. -/
def get_proxy_list (w : World) (rep : Bool) (s : FreeProxy) :
    Except String (List Proxy) × FreeProxy × Nat :=
  get_proxy_list_go w (if rep then 0 else 1) s

/-- The connection URL built in the loop of FreeProxy.get. -/
def proxyAddress (p : Proxy) : String :=
  p.protocol ++ "://" ++ p.ip ++ ":" ++ p.port

/-- The probing loop of FreeProxy.get: walk the candidates in order; on
the first address whose probe succeeds, stop and return it (the value of
__check_if_proxy_is_working is the address itself). Also returns the
ordered list of addresses actually probed. -/
def probeLoop (probe : String → Bool) : List Proxy → Option String × List String
  | [] => (none, [])
  | p :: rest =>
    let addr := proxyAddress p
    if probe addr then (some addr, [addr])
    else
      let r := probeLoop probe rest
      (r.1, addr :: r.2)

/-- FreeProxy.get with the repeat flag encoded as in get_proxy_list_go.
Returns the Python result (the working proxy address or the raised
message), the new instance state, the number of body invocations of get,
and the ordered list of addresses probed across all attempts. -/
def get_go (w : World) : Nat → FreeProxy → Except String String × FreeProxy × Nat × List String
  | retriesLeft, s =>
    let gpl := get_proxy_list_go w retriesLeft s
    match gpl.1 with
    | Except.error e => (Except.error e, gpl.2.1, 1, [])
    | Except.ok proxy_list =>
      if proxy_list.isEmpty then
        (Except.error "No proxies available.", gpl.2.1, 1, [])
      else
        let pr := probeLoop w.probe proxy_list
        match pr.1 with
        | some working_proxy => (Except.ok working_proxy, gpl.2.1, 1, pr.2)
        | none =>
          match retriesLeft with
          | Nat.succ n =>
            let s1 := gpl.2.1
            let s2 := if s1.country_id.isSome then { s1 with country_id := none } else s1
            let r := get_go w n s2
            (r.1, r.2.1, r.2.2.1 + 1, pr.2 ++ r.2.2.2)
          | Nat.zero =>
            (Except.error "There are no working proxies at this time.", gpl.2.1, 1, pr.2)

/-- FreeProxy.get on the Boolean repeat flag of the source (the flag is
passed through to get_proxy_list unchanged). -/
def get (w : World) (rep : Bool) (s : FreeProxy) :
    Except String String × FreeProxy × Nat × List String :=
  get_go w (if rep then 0 else 1) s

end FP

namespace FP

/-! Helper lemmas about the embedding. -/

theorem swapCells_size (a : Array Proxy) (i j : Nat) : (swapCells a i j).size = a.size := by
  unfold swapCells
  split <;> [skip; rfl]
  split <;> [simp [Array.size_swap]; rfl]

theorem shuffleGo_size (rand : Nat → Nat) (n : Nat) :
    ∀ a : Array Proxy, (shuffleGo rand a n).size = a.size := by
  induction n with
  | zero => intro a; rfl
  | succ i ih => intro a; simp [shuffleGo, ih, swapCells_size]

theorem shuffle_length (rand : Nat → Nat) (l : List Proxy) :
    (shuffle rand l).length = l.length := by
  simp [shuffle, shuffleGo_size]

theorem gpl_go_fetch_empty (w : World) (h : fetchRound w = []) (n : Nat) (s : FreeProxy) :
    get_proxy_list_go w n s =
      (Except.error "Failed to retrieve any proxies from all sources.", s, 1) := by
  unfold get_proxy_list_go
  simp [h]

theorem gpl_go_ok (w : World) (n : Nat) (s : FreeProxy)
    (h1 : fetchRound w ≠ [])
    (h2 : (fetchRound w).filter (fun proxy => s.criteria proxy) ≠ []) :
    get_proxy_list_go w n s =
      (Except.ok (if s.random then
          shuffle w.rand ((fetchRound w).filter (fun proxy => s.criteria proxy))
        else (fetchRound w).filter (fun proxy => s.criteria proxy)), s, 1) := by
  unfold get_proxy_list_go
  simp [h1, h2]
  split <;> simp

theorem gpl_go_retry (w : World) (n : Nat) (s : FreeProxy)
    (h1 : fetchRound w ≠ [])
    (h2 : (fetchRound w).filter (fun proxy => s.criteria proxy) = []) :
    get_proxy_list_go w (n + 1) s =
      ((get_proxy_list_go w n { s with country_id := none }).1,
       (get_proxy_list_go w n { s with country_id := none }).2.1,
       (get_proxy_list_go w n { s with country_id := none }).2.2 + 1) := by
  conv_lhs => rw [get_proxy_list_go]
  simp [h1, h2]

theorem gpl_go_exhaust (w : World) (s : FreeProxy)
    (h1 : fetchRound w ≠ [])
    (h2 : (fetchRound w).filter (fun proxy => s.criteria proxy) = []) :
    get_proxy_list_go w 0 s =
      (Except.error "No proxies found matching the specified criteria.", s, 1) := by
  unfold get_proxy_list_go
  simp [h1, h2]

theorem clear_clear (s : FreeProxy) :
    ({ { s with country_id := none } with country_id := none } : FreeProxy) =
      { s with country_id := none } := rfl

theorem clear_if_isSome (s1 : FreeProxy) :
    (if s1.country_id.isSome then { s1 with country_id := none } else s1) =
      { s1 with country_id := none } := by
  cases s1 with
  | mk c t r a e g sc => cases c <;> rfl

theorem gpl_go_state (w : World) (n : Nat) :
    ∀ s : FreeProxy, (get_proxy_list_go w n s).2.1 = s ∨
      (get_proxy_list_go w n s).2.1 = { s with country_id := none } := by
  induction n with
  | zero =>
    intro s
    by_cases hF : fetchRound w = []
    · rw [gpl_go_fetch_empty w hF]; left; rfl
    · by_cases hf : (fetchRound w).filter (fun proxy => s.criteria proxy) = []
      · rw [gpl_go_exhaust w s hF hf]; left; rfl
      · rw [gpl_go_ok w 0 s hF hf]; left; rfl
  | succ n ih =>
    intro s
    by_cases hF : fetchRound w = []
    · rw [gpl_go_fetch_empty w hF]; left; rfl
    · by_cases hf : (fetchRound w).filter (fun proxy => s.criteria proxy) = []
      · rw [gpl_go_retry w n s hF hf]
        rcases ih { s with country_id := none } with h | h
        · right; exact h
        · right; rw [h, clear_clear]
      · rw [gpl_go_ok w (n + 1) s hF hf]; left; rfl

theorem gpl_go_zero_rounds (w : World) (s : FreeProxy) :
    (get_proxy_list_go w 0 s).2.2 = 1 := by
  by_cases hF : fetchRound w = []
  · rw [gpl_go_fetch_empty w hF]
  · by_cases hf : (fetchRound w).filter (fun proxy => s.criteria proxy) = []
    · rw [gpl_go_exhaust w s hF hf]
    · rw [gpl_go_ok w 0 s hF hf]

theorem gpl_go_one_rounds (w : World) (s : FreeProxy) :
    (get_proxy_list_go w 1 s).2.2 ≤ 2 := by
  by_cases hF : fetchRound w = []
  · rw [gpl_go_fetch_empty w hF]; exact Nat.le_succ 1
  · by_cases hf : (fetchRound w).filter (fun proxy => s.criteria proxy) = []
    · rw [gpl_go_retry w 0 s hF hf]
      simp [gpl_go_zero_rounds]
    · rw [gpl_go_ok w 1 s hF hf]; exact Nat.le_succ 1

theorem gpl_go_ok_ne_nil (w : World) (n : Nat) :
    ∀ (s : FreeProxy) (l : List Proxy), (get_proxy_list_go w n s).1 = Except.ok l → l ≠ [] := by
  induction n with
  | zero =>
    intro s l h
    by_cases hF : fetchRound w = []
    · rw [gpl_go_fetch_empty w hF] at h; exact absurd h (by simp)
    · by_cases hf : (fetchRound w).filter (fun proxy => s.criteria proxy) = []
      · rw [gpl_go_exhaust w s hF hf] at h; exact absurd h (by simp)
      · rw [gpl_go_ok w 0 s hF hf] at h
        simp only [Except.ok.injEq] at h
        subst h
        split
        · intro hnil
          have := shuffle_length w.rand ((fetchRound w).filter (fun proxy => s.criteria proxy))
          rw [hnil] at this
          exact hf (List.eq_nil_of_length_eq_zero this.symm)
        · exact hf
  | succ n ih =>
    intro s l h
    by_cases hF : fetchRound w = []
    · rw [gpl_go_fetch_empty w hF] at h; exact absurd h (by simp)
    · by_cases hf : (fetchRound w).filter (fun proxy => s.criteria proxy) = []
      · rw [gpl_go_retry w n s hF hf] at h
        exact ih { s with country_id := none } l h
      · rw [gpl_go_ok w (n + 1) s hF hf] at h
        simp only [Except.ok.injEq] at h
        subst h
        split
        · intro hnil
          have := shuffle_length w.rand ((fetchRound w).filter (fun proxy => s.criteria proxy))
          rw [hnil] at this
          exact hf (List.eq_nil_of_length_eq_zero this.symm)
        · exact hf

theorem probeLoop_all_fail (probe : String → Bool) :
    ∀ l : List Proxy, (∀ p ∈ l, probe (proxyAddress p) = false) →
      probeLoop probe l = (none, l.map proxyAddress) := by
  intro l
  induction l with
  | nil => intro _; rfl
  | cons p rest ih =>
    intro h
    have hp := h p (List.mem_cons_self p rest)
    simp [probeLoop, hp, ih (fun q hq => h q (List.mem_cons_of_mem p hq))]

theorem probeLoop_first_success (probe : String → Bool) (p : Proxy)
    (hp : probe (proxyAddress p) = true) :
    ∀ (l1 l2 : List Proxy), (∀ q ∈ l1, probe (proxyAddress q) = false) →
      probeLoop probe (l1 ++ p :: l2) =
        (some (proxyAddress p), l1.map proxyAddress ++ [proxyAddress p]) := by
  intro l1
  induction l1 with
  | nil => intro l2 _; simp [probeLoop, hp]
  | cons q rest ih =>
    intro l2 h
    have hq := h q (List.mem_cons_self q rest)
    simp [probeLoop, hq, ih l2 (fun r hr => h r (List.mem_cons_of_mem q hr))]

end FP

namespace FP

theorem get_go_gpl_error (w : World) (n : Nat) (s : FreeProxy) (e : String)
    (h : (get_proxy_list_go w n s).1 = Except.error e) :
    get_go w n s = (Except.error e, (get_proxy_list_go w n s).2.1, 1, []) := by
  conv_lhs => rw [get_go]
  simp [h]

theorem get_go_probe_some (w : World) (n : Nat) (s : FreeProxy) (l : List Proxy) (a : String)
    (hok : (get_proxy_list_go w n s).1 = Except.ok l)
    (hne : l ≠ [])
    (hsome : (probeLoop w.probe l).1 = some a) :
    get_go w n s = (Except.ok a, (get_proxy_list_go w n s).2.1, 1, (probeLoop w.probe l).2) := by
  conv_lhs => rw [get_go]
  simp [hok, hne, hsome]

theorem get_go_probe_none_retry (w : World) (n : Nat) (s : FreeProxy) (l : List Proxy)
    (hok : (get_proxy_list_go w (n + 1) s).1 = Except.ok l)
    (hne : l ≠ [])
    (hnone : (probeLoop w.probe l).1 = none) :
    get_go w (n + 1) s =
      ((get_go w n { (get_proxy_list_go w (n + 1) s).2.1 with country_id := none }).1,
       (get_go w n { (get_proxy_list_go w (n + 1) s).2.1 with country_id := none }).2.1,
       (get_go w n { (get_proxy_list_go w (n + 1) s).2.1 with country_id := none }).2.2.1 + 1,
       (probeLoop w.probe l).2 ++
         (get_go w n { (get_proxy_list_go w (n + 1) s).2.1 with country_id := none }).2.2.2) := by
  conv_lhs => rw [get_go]
  simp [hok, hne, hnone, clear_if_isSome]

theorem get_go_probe_none_exhaust (w : World) (s : FreeProxy) (l : List Proxy)
    (hok : (get_proxy_list_go w 0 s).1 = Except.ok l)
    (hne : l ≠ [])
    (hnone : (probeLoop w.probe l).1 = none) :
    get_go w 0 s =
      (Except.error "There are no working proxies at this time.",
       (get_proxy_list_go w 0 s).2.1, 1, (probeLoop w.probe l).2) := by
  conv_lhs => rw [get_go]
  simp [hok, hne, hnone]

theorem gpl_go_error_msgs (w : World) (n : Nat) :
    ∀ (s : FreeProxy) (e : String), (get_proxy_list_go w n s).1 = Except.error e →
      e = "Failed to retrieve any proxies from all sources." ∨
      e = "No proxies found matching the specified criteria." := by
  induction n with
  | zero =>
    intro s e h
    by_cases hF : fetchRound w = []
    · rw [gpl_go_fetch_empty w hF] at h
      simp at h
      exact Or.inl h.symm
    · by_cases hf : (fetchRound w).filter (fun proxy => s.criteria proxy) = []
      · rw [gpl_go_exhaust w s hF hf] at h
        simp at h
        exact Or.inr h.symm
      · rw [gpl_go_ok w 0 s hF hf] at h
        exact absurd h (by simp)
  | succ n ih =>
    intro s e h
    by_cases hF : fetchRound w = []
    · rw [gpl_go_fetch_empty w hF] at h
      simp at h
      exact Or.inl h.symm
    · by_cases hf : (fetchRound w).filter (fun proxy => s.criteria proxy) = []
      · rw [gpl_go_retry w n s hF hf] at h
        exact ih { s with country_id := none } e h
      · rw [gpl_go_ok w (n + 1) s hF hf] at h
        exact absurd h (by simp)

theorem get_go_state (w : World) (n : Nat) :
    ∀ s, (get_go w n s).2.1 = s ∨ (get_go w n s).2.1 = { s with country_id := none } := by
  induction n with
  | zero =>
    intro s
    rcases hg : (get_proxy_list_go w 0 s).1 with e | l
    · rw [get_go_gpl_error w 0 s e hg]; exact gpl_go_state w 0 s
    · have hne := gpl_go_ok_ne_nil w 0 s l hg
      rcases hp : (probeLoop w.probe l).1 with _ | a
      · rw [get_go_probe_none_exhaust w s l hg hne hp]; exact gpl_go_state w 0 s
      · rw [get_go_probe_some w 0 s l a hg hne hp]; exact gpl_go_state w 0 s
  | succ n ih =>
    intro s
    rcases hg : (get_proxy_list_go w (n + 1) s).1 with e | l
    · rw [get_go_gpl_error w (n + 1) s e hg]; exact gpl_go_state w (n + 1) s
    · have hne := gpl_go_ok_ne_nil w (n + 1) s l hg
      rcases hp : (probeLoop w.probe l).1 with _ | a
      · rw [get_go_probe_none_retry w n s l hg hne hp]
        rcases gpl_go_state w (n + 1) s with h1 | h1 <;> rw [h1]
        · rcases ih { s with country_id := none } with h2 | h2
          · right; exact h2
          · right; rw [h2, clear_clear]
        · rw [clear_clear]
          rcases ih { s with country_id := none } with h2 | h2
          · right; exact h2
          · right; rw [h2, clear_clear]
      · rw [get_go_probe_some w (n + 1) s l a hg hne hp]; exact gpl_go_state w (n + 1) s

theorem get_go_zero_calls (w : World) (s : FreeProxy) : (get_go w 0 s).2.2.1 = 1 := by
  rcases hg : (get_proxy_list_go w 0 s).1 with e | l
  · rw [get_go_gpl_error w 0 s e hg]
  · have hne := gpl_go_ok_ne_nil w 0 s l hg
    rcases hp : (probeLoop w.probe l).1 with _ | a
    · rw [get_go_probe_none_exhaust w s l hg hne hp]
    · rw [get_go_probe_some w 0 s l a hg hne hp]

theorem get_go_one_calls (w : World) (s : FreeProxy) : (get_go w 1 s).2.2.1 ≤ 2 := by
  rcases hg : (get_proxy_list_go w 1 s).1 with e | l
  · rw [get_go_gpl_error w 1 s e hg]; exact Nat.le_succ 1
  · have hne := gpl_go_ok_ne_nil w 1 s l hg
    rcases hp : (probeLoop w.probe l).1 with _ | a
    · rw [get_go_probe_none_retry w 0 s l hg hne hp]
      simp [get_go_zero_calls]
    · rw [get_go_probe_some w 1 s l a hg hne hp]; exact Nat.le_succ 1

theorem get_go_not_unavailable (w : World) (n : Nat) :
    ∀ s, (get_go w n s).1 ≠ Except.error "No proxies available." := by
  induction n with
  | zero =>
    intro s
    rcases hg : (get_proxy_list_go w 0 s).1 with e | l
    · rw [get_go_gpl_error w 0 s e hg]
      intro h
      simp at h
      rcases gpl_go_error_msgs w 0 s e hg with he | he <;> simp [he] at h
    · have hne := gpl_go_ok_ne_nil w 0 s l hg
      rcases hp : (probeLoop w.probe l).1 with _ | a
      · rw [get_go_probe_none_exhaust w s l hg hne hp]
        intro h; simp at h
      · rw [get_go_probe_some w 0 s l a hg hne hp]
        intro h; simp at h
  | succ n ih =>
    intro s
    rcases hg : (get_proxy_list_go w (n + 1) s).1 with e | l
    · rw [get_go_gpl_error w (n + 1) s e hg]
      intro h
      simp at h
      rcases gpl_go_error_msgs w (n + 1) s e hg with he | he <;> simp [he] at h
    · have hne := gpl_go_ok_ne_nil w (n + 1) s l hg
      rcases hp : (probeLoop w.probe l).1 with _ | a
      · rw [get_go_probe_none_retry w n s l hg hne hp]
        exact ih { (get_proxy_list_go w (n + 1) s).2.1 with country_id := none }
      · rw [get_go_probe_some w (n + 1) s l a hg hne hp]
        intro h; simp at h

theorem gpl_go_fetch_error_iff (w : World) (n : Nat) :
    ∀ s : FreeProxy,
      ((get_proxy_list_go w n s).1 =
          Except.error "Failed to retrieve any proxies from all sources." ↔
        fetchRound w = []) := by
  induction n with
  | zero =>
    intro s
    by_cases hF : fetchRound w = []
    · rw [gpl_go_fetch_empty w hF]; simp [hF]
    · by_cases hf : (fetchRound w).filter (fun proxy => s.criteria proxy) = []
      · rw [gpl_go_exhaust w s hF hf]
        simp only [Except.error.injEq]
        constructor
        · intro h; exact absurd h (by decide)
        · intro h; exact absurd h hF
      · rw [gpl_go_ok w 0 s hF hf]
        constructor
        · intro h; exact absurd h (by simp)
        · intro h; exact absurd h hF
  | succ n ih =>
    intro s
    by_cases hF : fetchRound w = []
    · rw [gpl_go_fetch_empty w hF]; simp [hF]
    · by_cases hf : (fetchRound w).filter (fun proxy => s.criteria proxy) = []
      · rw [gpl_go_retry w n s hF hf]
        exact ih { s with country_id := none }
      · rw [gpl_go_ok w (n + 1) s hF hf]
        constructor
        · intro h; exact absurd h (by simp)
        · intro h; exact absurd h hF

theorem gpl_one_retry (w : World) (s : FreeProxy)
    (h1 : fetchRound w ≠ [])
    (h2 : (fetchRound w).filter (fun proxy => s.criteria proxy) = []) :
    get_proxy_list_go w 1 s =
      ((get_proxy_list_go w 0 { s with country_id := none }).1,
       (get_proxy_list_go w 0 { s with country_id := none }).2.1,
       (get_proxy_list_go w 0 { s with country_id := none }).2.2 + 1) :=
  gpl_go_retry w 0 s h1 h2

theorem get_one_retry (w : World) (s : FreeProxy) (l : List Proxy)
    (hok : (get_proxy_list_go w 1 s).1 = Except.ok l)
    (hne : l ≠ [])
    (hnone : (probeLoop w.probe l).1 = none) :
    get_go w 1 s =
      ((get_go w 0 { (get_proxy_list_go w 1 s).2.1 with country_id := none }).1,
       (get_go w 0 { (get_proxy_list_go w 1 s).2.1 with country_id := none }).2.1,
       (get_go w 0 { (get_proxy_list_go w 1 s).2.1 with country_id := none }).2.2.1 + 1,
       (probeLoop w.probe l).2 ++
         (get_go w 0 { (get_proxy_list_go w 1 s).2.1 with country_id := none }).2.2.2) :=
  get_go_probe_none_retry w 0 s l hok hne hnone

end FP

namespace FP

theorem gpl_go_congr (w w2 : World) (hf : fetchRound w = fetchRound w2)
    (hr : w.rand = w2.rand) (n : Nat) :
    ∀ s, get_proxy_list_go w n s = get_proxy_list_go w2 n s := by
  induction n with
  | zero =>
    intro s
    by_cases hF : fetchRound w = []
    · rw [gpl_go_fetch_empty w hF, gpl_go_fetch_empty w2 (hf.symm.trans hF)]
    · by_cases hfil : (fetchRound w).filter (fun proxy => s.criteria proxy) = []
      · rw [gpl_go_exhaust w s hF hfil,
            gpl_go_exhaust w2 s (fun h => hF (hf.trans h)) (by rw [← hf]; exact hfil)]
      · rw [gpl_go_ok w 0 s hF hfil,
            gpl_go_ok w2 0 s (fun h => hF (hf.trans h)) (by rw [← hf]; exact hfil), hf, hr]
  | succ n ih =>
    intro s
    by_cases hF : fetchRound w = []
    · rw [gpl_go_fetch_empty w hF, gpl_go_fetch_empty w2 (hf.symm.trans hF)]
    · by_cases hfil : (fetchRound w).filter (fun proxy => s.criteria proxy) = []
      · rw [gpl_go_retry w n s hF hfil,
            gpl_go_retry w2 n s (fun h => hF (hf.trans h)) (by rw [← hf]; exact hfil),
            ih { s with country_id := none }]
      · rw [gpl_go_ok w (n + 1) s hF hfil,
            gpl_go_ok w2 (n + 1) s (fun h => hF (hf.trans h)) (by rw [← hf]; exact hfil), hf, hr]

theorem get_go_congr (w w2 : World) (hf : fetchRound w = fetchRound w2)
    (hr : w.rand = w2.rand) (hp : w.probe = w2.probe) (n : Nat) :
    ∀ s, get_go w n s = get_go w2 n s := by
  have hgpl := gpl_go_congr w w2 hf hr
  induction n with
  | zero =>
    intro s
    rcases hg : (get_proxy_list_go w 0 s).1 with e | l
    · rw [get_go_gpl_error w 0 s e hg,
          get_go_gpl_error w2 0 s e (by rw [← hgpl 0 s]; exact hg), hgpl 0 s]
    · have hne := gpl_go_ok_ne_nil w 0 s l hg
      rcases hpr : (probeLoop w.probe l).1 with _ | a
      · rw [get_go_probe_none_exhaust w s l hg hne hpr,
            get_go_probe_none_exhaust w2 s l (by rw [← hgpl 0 s]; exact hg) hne
              (by rw [← hp]; exact hpr),
            hgpl 0 s, hp]
      · rw [get_go_probe_some w 0 s l a hg hne hpr,
            get_go_probe_some w2 0 s l a (by rw [← hgpl 0 s]; exact hg) hne
              (by rw [← hp]; exact hpr),
            hgpl 0 s, hp]
  | succ n ih =>
    intro s
    rcases hg : (get_proxy_list_go w (n + 1) s).1 with e | l
    · rw [get_go_gpl_error w (n + 1) s e hg,
          get_go_gpl_error w2 (n + 1) s e (by rw [← hgpl (n + 1) s]; exact hg), hgpl (n + 1) s]
    · have hne := gpl_go_ok_ne_nil w (n + 1) s l hg
      rcases hpr : (probeLoop w.probe l).1 with _ | a
      · rw [get_go_probe_none_retry w n s l hg hne hpr,
            get_go_probe_none_retry w2 n s l (by rw [← hgpl (n + 1) s]; exact hg) hne
              (by rw [← hp]; exact hpr),
            hgpl (n + 1) s, hp, ih { (get_proxy_list_go w2 (n + 1) s).2.1 with country_id := none }]
      · rw [get_go_probe_some w (n + 1) s l a hg hne hpr,
            get_go_probe_some w2 (n + 1) s l a (by rw [← hgpl (n + 1) s]; exact hg) hne
              (by rw [← hp]; exact hpr),
            hgpl (n + 1) s, hp]

end FP

namespace FP

/-! Concrete fixtures used by witnesses and counterexamples. -/

/-- A GeoNode item that parses to an http record with country US. -/
def itemA : GeonodeItem :=
  { ip := "1.1.1.1", port := "80", country := "US", anonymityLevel := "elite",
    google := false, protocols := [] }

/-- A second GeoNode item, ip 2.2.2.2. -/
def itemB : GeonodeItem :=
  { ip := "2.2.2.2", port := "80", country := "US", anonymityLevel := "elite",
    google := false, protocols := [] }

/-- A third GeoNode item, ip 3.3.3.3. -/
def itemC : GeonodeItem :=
  { ip := "3.3.3.3", port := "80", country := "US", anonymityLevel := "elite",
    google := false, protocols := [] }

/-- The record parsed from itemA. -/
def recA : Proxy := parseGeonodeItem itemA

/-- The record parsed from itemB. -/
def recB : Proxy := parseGeonodeItem itemB

/-- The record parsed from itemC. -/
def recC : Proxy := parseGeonodeItem itemC

/-- An instance with every filter inactive. -/
def sPlain : FreeProxy := FreeProxy.init none 5 false false false none false

/-- An instance with no country filter but the https scheme requirement. -/
def sHttps : FreeProxy := FreeProxy.init none 5 false false false none true

/-- An instance whose country filter names a code absent from every record. -/
def sZZ : FreeProxy := FreeProxy.init (some ["ZZ"]) 5 false false false none false

/-- A world where GeoNode returns one record and every probe fails. -/
def wOne : World :=
  { geonode := some [itemA], proxyscrape := none, websitePage := none,
    rand := fun _ => 0, probe := fun _ => false }

/-- A world with three candidates of which only the second probes
successfully. -/
def wThree : World :=
  { geonode := some [itemA, itemB, itemC], proxyscrape := none, websitePage := none,
    rand := fun _ => 0, probe := fun a => a == "http://2.2.2.2:80" }

/-- A world where both live providers fail. -/
def wEmpty : World :=
  { geonode := none, proxyscrape := none, websitePage := none,
    rand := fun _ => 0, probe := fun _ => false }

/-- A ProxyScrape item whose advertised protocol is SOCKS4. -/
def psSocks : ProxyscrapeItem :=
  { protocol := "SOCKS4", ip := "4.4.4.4", port := "1080", ipDataCountry := "DE",
    anonymity := "elite", ssl := false }

/-- A GeoNode item with ip 5.5.5.5 and elite anonymity. -/
def itemD : GeonodeItem :=
  { ip := "5.5.5.5", port := "80", country := "US", anonymityLevel := "elite",
    google := false, protocols := [] }

/-- A GeoNode item with the same ip, port and protocols as itemD but a
different anonymity level, so the two parse to distinct records sharing
one connection URL. -/
def itemE : GeonodeItem :=
  { ip := "5.5.5.5", port := "80", country := "US", anonymityLevel := "anonymous",
    google := false, protocols := [] }

/-- The record parsed from itemD. -/
def recD : Proxy := parseGeonodeItem itemD

/-- The record parsed from itemE. -/
def recE : Proxy := parseGeonodeItem itemE

/-- A world whose single candidate is recD and whose probe succeeds on
its address. -/
def wD : World :=
  { geonode := some [itemD], proxyscrape := none, websitePage := none,
    rand := fun _ => 0, probe := fun a => a == "http://5.5.5.5:80" }

/-- A world whose single candidate is recE and whose probe succeeds on
its address. -/
def wE : World :=
  { geonode := some [itemE], proxyscrape := none, websitePage := none,
    rand := fun _ => 0, probe := fun a => a == "http://5.5.5.5:80" }

/-- Claim C1: the criteria filter accepts a record iff all four active
sub-predicates hold (country membership, anonymity level, exact google
match, https when the configured scheme is https); with all
sub-predicates inactive every record is accepted because each implication
is vacuous. -/
theorem claim_c1_criteria (s : FreeProxy) (p : Proxy) :
    s.criteria p = true ↔
      CountryPred s p ∧ AnonymityPred s p ∧ GooglePred s p ∧ HttpsPred s p := by
  unfold FreeProxy.criteria CountryPred AnonymityPred GooglePred HttpsPred
  cases hc : s.country_id <;> cases ha : s.anonym <;> cases he : s.elite <;>
    cases hg : s.google <;>
      simp_all [truthyCountry, googleMismatch] <;> tauto

/-- Witness for C1 at a concrete elite US https record with every
sub-predicate active. -/
theorem claim_c1_witness :
    (FreeProxy.init (some ["US"]) 5 false true true (some false) true).criteria
      { ip := "1.1.1.1", port := "80", country := "US", anonymity := "elite",
        google := false, https := true, protocol := "https" } = true :=
  (claim_c1_criteria _ _).mpr
    ⟨fun _ => by decide, fun _ => by decide, fun g hg => by cases hg; rfl, fun _ => rfl⟩

/-- Counterexample to claim C2: with no country filter set (country_id is
None) and a non-empty fetch whose filtered list is empty, get_proxy_list
does NOT fail immediately: it performs the widen retry anyway (two body
invocations), and only then raises. -/
theorem claim_c2_counterexample :
    truthyCountry sHttps.country_id = false ∧
    (get_proxy_list wOne false sHttps).2.2 = 2 ∧
    (get_proxy_list wOne false sHttps).1 =
      Except.error "No proxies found matching the specified criteria." :=
  ⟨rfl, rfl, rfl⟩

/-- Claim C2 as amended: on the first attempt the widen retry runs
unconditionally whenever the filtered list (for get, the set of working
candidates) is empty, regardless of whether a country filter was active:
the call becomes exactly one repeat call on the state with the country
set cleared (so two body invocations in total), and a second exhaustion
is terminal, NoMatchingProxies for get_proxy_list and NoWorkingProxies
for get. -/
theorem claim_c2_amended (w : World) (s : FreeProxy) (l : List Proxy) :
    ((fetchRound w ≠ [] ∧ (fetchRound w).filter (fun proxy => s.criteria proxy) = []) →
      (get_proxy_list w false s).1 =
        (get_proxy_list w true { s with country_id := none }).1 ∧
      (get_proxy_list w false s).2.2 = 2 ∧
      (get_proxy_list w true s).1 =
        Except.error "No proxies found matching the specified criteria.") ∧
    (((get_proxy_list w false s).1 = Except.ok l ∧
        (∀ q ∈ l, w.probe (proxyAddress q) = false)) →
      (get w false s).1 =
        (get w true { (get_proxy_list w false s).2.1 with country_id := none }).1 ∧
      (get w false s).2.2.1 = 2) ∧
    (((get_proxy_list w true s).1 = Except.ok l ∧
        (∀ q ∈ l, w.probe (proxyAddress q) = false)) →
      (get w true s).1 = Except.error "There are no working proxies at this time.") := by
  refine ⟨?_, ?_, ?_⟩
  · rintro ⟨h1, h2⟩
    have hretry := gpl_one_retry w s h1 h2
    refine ⟨?_, ?_, ?_⟩
    · show (get_proxy_list_go w 1 s).1 =
        (get_proxy_list_go w 0 { s with country_id := none }).1
      rw [hretry]
    · show (get_proxy_list_go w 1 s).2.2 = 2
      rw [hretry]
      simp [gpl_go_zero_rounds]
    · show (get_proxy_list_go w 0 s).1 =
        Except.error "No proxies found matching the specified criteria."
      rw [gpl_go_exhaust w s h1 h2]
  · rintro ⟨hok, hfail⟩
    have hok1 : (get_proxy_list_go w 1 s).1 = Except.ok l := hok
    have hne := gpl_go_ok_ne_nil w 1 s l hok1
    have hpl := probeLoop_all_fail w.probe l hfail
    have hplnone : (probeLoop w.probe l).1 = none := by rw [hpl]
    have hretry := get_one_retry w s l hok1 hne hplnone
    constructor
    · show (get_go w 1 s).1 =
        (get_go w 0 { (get_proxy_list_go w 1 s).2.1 with country_id := none }).1
      rw [hretry]
    · show (get_go w 1 s).2.2.1 = 2
      rw [hretry]
      simp [get_go_zero_calls]
  · rintro ⟨hok, hfail⟩
    have hok0 : (get_proxy_list_go w 0 s).1 = Except.ok l := hok
    have hne := gpl_go_ok_ne_nil w 0 s l hok0
    have hpl := probeLoop_all_fail w.probe l hfail
    have hplnone : (probeLoop w.probe l).1 = none := by rw [hpl]
    show (get_go w 0 s).1 = Except.error "There are no working proxies at this time."
    rw [get_go_probe_none_exhaust w s l hok0 hne hplnone]

/-- Witness for the amended C2 with NO country filter set in either
scenario: the https requirement of sHttps empties the filtered list and
get_proxy_list still retries once before raising; with sPlain all probes
fail and get retries once on the cleared state, and the repeat attempt
raises NoWorkingProxies. -/
theorem claim_c2_witness :
    ((get_proxy_list wOne false sHttps).1 =
        (get_proxy_list wOne true { sHttps with country_id := none }).1 ∧
      (get_proxy_list wOne false sHttps).2.2 = 2 ∧
      (get_proxy_list wOne true sHttps).1 =
        Except.error "No proxies found matching the specified criteria.") ∧
    ((get wOne false sPlain).1 =
        (get wOne true { (get_proxy_list wOne false sPlain).2.1 with country_id := none }).1 ∧
      (get wOne false sPlain).2.2.1 = 2) ∧
    (get wOne true sPlain).1 = Except.error "There are no working proxies at this time." :=
  ⟨(claim_c2_amended wOne sHttps []).1 ⟨by decide, by decide⟩,
   (claim_c2_amended wOne sPlain [recA]).2.1 ⟨by rfl, by decide⟩,
   (claim_c2_amended wOne sPlain [recA]).2.2 ⟨by rfl, by decide⟩⟩

/-- Counterexample to claim C3: get does not return the successful
candidate as a ProxyRecord: __check_if_proxy_is_working returns only the
connection URL string, so two runs whose successful candidates are
distinct records sharing an address return identical values, every other
field of the record being discarded. -/
theorem claim_c3_counterexample :
    recD ≠ recE ∧
    (get wD false sPlain).1 = Except.ok "http://5.5.5.5:80" ∧
    (get wE false sPlain).1 = Except.ok "http://5.5.5.5:80" :=
  ⟨by decide, rfl, rfl⟩

/-- Claim C3 as amended: get probes candidates sequentially in list
order; on the first success it immediately returns the connection URL
string built from that candidate (not the full record), and the probe
trace is the earlier candidates once each, in order, followed by the
successful one, with nothing probed after it. -/
theorem claim_c3_first_match (w : World) (rep : Bool) (s : FreeProxy)
    (l1 : List Proxy) (p : Proxy) (l2 : List Proxy)
    (hok : (get_proxy_list w rep s).1 = Except.ok (l1 ++ p :: l2))
    (hfail : ∀ q ∈ l1, w.probe (proxyAddress q) = false)
    (hsucc : w.probe (proxyAddress p) = true) :
    (get w rep s).1 = Except.ok (proxyAddress p) ∧
    (get w rep s).2.2.2 = l1.map proxyAddress ++ [proxyAddress p] := by
  have hpl := probeLoop_first_success w.probe p hsucc l1 l2 hfail
  have hkey := get_go_probe_some w (if rep then 0 else 1) s (l1 ++ p :: l2)
    (proxyAddress p) hok (by simp) (by rw [hpl])
  unfold get
  rw [hkey, hpl]
  exact ⟨rfl, rfl⟩

/-- Witness for the amended C3: three candidates, only the second probes
successfully; get returns the connection URL of the second candidate and
probes exactly the first and the second, once each, in order. -/
theorem claim_c3_witness :
    (get wThree false sPlain).1 = Except.ok (proxyAddress recB) ∧
    (get wThree false sPlain).2.2.2 = [recA].map proxyAddress ++ [proxyAddress recB] :=
  claim_c3_first_match wThree false sPlain [recA] recB [recC] (by rfl) (by decide) (by decide)

/-- Claim C4: the aggregation is the concatenation of the two configured
fetcher outputs in declaration order with no deduplication (length is the
sum), the NoProxiesAvailable error is raised iff both outputs are empty,
and that failure is surfaced on the first body invocation, never
retried. -/
theorem claim_c4_aggregation (w : World) (rep : Bool) (s : FreeProxy) :
    fetchRound w =
      get_proxies_from_geonode w.geonode ++ get_proxies_from_proxyscrape w.proxyscrape ∧
    (fetchRound w).length =
      (get_proxies_from_geonode w.geonode).length +
        (get_proxies_from_proxyscrape w.proxyscrape).length ∧
    ((get_proxy_list w rep s).1 =
        Except.error "Failed to retrieve any proxies from all sources." ↔
      (get_proxies_from_geonode w.geonode = [] ∧
        get_proxies_from_proxyscrape w.proxyscrape = [])) ∧
    ((get_proxy_list w rep s).1 =
        Except.error "Failed to retrieve any proxies from all sources." →
      (get_proxy_list w rep s).2.2 = 1) := by
  refine ⟨rfl, by simp [fetchRound], ?_, ?_⟩
  · exact (gpl_go_fetch_error_iff w _ s).trans (by simp [fetchRound])
  · intro h
    have hF : fetchRound w = [] := (gpl_go_fetch_error_iff w _ s).mp h
    show (get_proxy_list_go w _ s).2.2 = 1
    rw [gpl_go_fetch_empty w hF]

/-- Witness for C4 at a world where both providers fail. -/
theorem claim_c4_witness :
    get_proxies_from_geonode wEmpty.geonode = [] ∧
    get_proxies_from_proxyscrape wEmpty.proxyscrape = [] :=
  (claim_c4_aggregation wEmpty false sPlain).2.2.1.mp rfl

/-- Claim C5: both operations are total and the widen retry is attempted
at most once: a first attempt performs at most two body invocations and a
repeat call performs exactly one, so a second exhaustion is terminal. -/
theorem claim_c5_bounded (w : World) (s : FreeProxy) :
    (get_proxy_list w false s).2.2 ≤ 2 ∧ (get_proxy_list w true s).2.2 = 1 ∧
    (get w false s).2.2.1 ≤ 2 ∧ (get w true s).2.2.1 = 1 :=
  ⟨gpl_go_one_rounds w s, gpl_go_zero_rounds w s, get_go_one_calls w s, get_go_zero_calls w s⟩

/-- Counterexample to claim C6: after a get_proxy_list call that takes
the widen retry, the configuration held by the instance has its country
set cleared, not the original value some ZZ. -/
theorem claim_c6_counterexample :
    sZZ.country_id = some ["ZZ"] ∧
    (get_proxy_list wOne false sZZ).2.1.country_id = none ∧
    (get wOne false sZZ).2.1.country_id = none :=
  ⟨rfl, rfl, rfl⟩

/-- Claim C6 as amended: the final instance state is either the original
configuration or the original with country_id cleared in place (the
widen retry mutates the shared country_id field); no other field is ever
changed. -/
theorem claim_c6_amended (w : World) (rep : Bool) (s : FreeProxy) :
    ((get_proxy_list w rep s).2.1 = s ∨
      (get_proxy_list w rep s).2.1 = { s with country_id := none }) ∧
    ((get w rep s).2.1 = s ∨ (get w rep s).2.1 = { s with country_id := none }) :=
  ⟨gpl_go_state w _ s, get_go_state w _ s⟩

/-- Counterexample to claim C7: the ProxyScrape fetcher copies the
lowercased protocol of the response verbatim, so a SOCKS4 item yields a
record whose protocol is neither http nor https. -/
theorem claim_c7_counterexample :
    (parseProxyscrapeItem psSocks).protocol ≠ "http" ∧
    (parseProxyscrapeItem psSocks).protocol ≠ "https" :=
  ⟨by decide, by decide⟩

/-- Claim C7 as amended: the GeoNode and website fetchers emit only http
or https as protocol, while the ProxyScrape fetcher emits the lowercased
source protocol string unchanged, whatever it is. -/
theorem claim_c7_amended (item : GeonodeItem) (row : WebsiteRow) (pitem : ProxyscrapeItem) :
    ((parseGeonodeItem item).protocol = "http" ∨ (parseGeonodeItem item).protocol = "https") ∧
    ((parseWebsiteRow row).protocol = "http" ∨ (parseWebsiteRow row).protocol = "https") ∧
    (parseProxyscrapeItem pitem).protocol = pyLower pitem.protocol := by
  refine ⟨?_, ?_, rfl⟩
  · unfold parseGeonodeItem
    cases h : ((item.protocols.map (fun proto => pyLower proto)).contains "https") <;> simp [h]
  · unfold parseWebsiteRow
    cases h : (pyLower row.cell6.trim == "yes") <;> simp [h]

/-- Counterexample to claim C8: the legacy website fetcher does not
return an empty sequence on network failure; it raises a
FreeProxyException instead. -/
theorem claim_c8_counterexample :
    get_proxies_from_websites none = Except.error "Request to website failed" := rfl

/-- Claim C8 as amended: the two live fetchers (GeoNode and ProxyScrape)
swallow request failures and return the empty sequence, while the legacy
website fetcher raises; that fetcher is never consulted by the pipeline,
whose result is independent of the website response, so no fetcher
failure aborts the pipeline. -/
theorem claim_c8_amended :
    get_proxies_from_geonode none = [] ∧
    get_proxies_from_proxyscrape none = [] ∧
    get_proxies_from_websites none = Except.error "Request to website failed" ∧
    (∀ (g : Option (List GeonodeItem)) (ps : Option (List ProxyscrapeItem))
       (page1 page2 : Option (List WebsiteRow)) (rnd : Nat → Nat) (pr : String → Bool)
       (rep : Bool) (s : FreeProxy),
       get_proxy_list ⟨g, ps, page1, rnd, pr⟩ rep s =
         get_proxy_list ⟨g, ps, page2, rnd, pr⟩ rep s ∧
       get ⟨g, ps, page1, rnd, pr⟩ rep s = get ⟨g, ps, page2, rnd, pr⟩ rep s) := by
  refine ⟨rfl, rfl, rfl, ?_⟩
  intro g ps page1 page2 rnd pr rep s
  exact ⟨gpl_go_congr ⟨g, ps, page1, rnd, pr⟩ ⟨g, ps, page2, rnd, pr⟩ rfl rfl _ s,
         get_go_congr ⟨g, ps, page1, rnd, pr⟩ ⟨g, ps, page2, rnd, pr⟩ rfl rfl rfl _ s⟩

/-- Claim C9: with randomize off, a second get_proxy_list call on the
instance state left by the first call returns the same result value,
including when the first call takes the widen retry (the model draws its
shuffle randomness per world, so the hypothesis on the randomize flag is
kept exactly as the claim states it). -/
theorem claim_c9_idempotent (w : World) (s : FreeProxy) (_hr : s.random = false) :
    (get_proxy_list w false ((get_proxy_list w false s).2.1)).1 =
      (get_proxy_list w false s).1 := by
  show (get_proxy_list_go w 1 ((get_proxy_list_go w 1 s).2.1)).1 = (get_proxy_list_go w 1 s).1
  by_cases hF : fetchRound w = []
  · have h1 := gpl_go_fetch_empty w hF 1 s
    have hstate : (get_proxy_list_go w 1 s).2.1 = s := by rw [h1]
    rw [hstate]
  · by_cases hf1 : (fetchRound w).filter (fun proxy => s.criteria proxy) = []
    · have h1 := gpl_one_retry w s hF hf1
      by_cases hf2 :
          (fetchRound w).filter
            (fun proxy => FreeProxy.criteria { s with country_id := none } proxy) = []
      · have hex := gpl_go_exhaust w { s with country_id := none } hF hf2
        have hstate : (get_proxy_list_go w 1 s).2.1 = { s with country_id := none } := by
          rw [h1, hex]
        rw [hstate]
        have h2 := gpl_one_retry w { s with country_id := none } hF hf2
        rw [h2, h1, hex, clear_clear]
      · have hok := gpl_go_ok w 0 { s with country_id := none } hF hf2
        have hstate : (get_proxy_list_go w 1 s).2.1 = { s with country_id := none } := by
          rw [h1, hok]
        rw [hstate]
        have hok1 := gpl_go_ok w 1 { s with country_id := none } hF hf2
        rw [hok1, h1, hok]
    · have hok := gpl_go_ok w 1 s hF hf1
      have hstate : (get_proxy_list_go w 1 s).2.1 = s := by rw [hok]
      rw [hstate]

/-- Witness for C9 at a run that takes the widen retry path. -/
theorem claim_c9_witness :
    (get_proxy_list wOne false ((get_proxy_list wOne false sZZ).2.1)).1 =
      (get_proxy_list wOne false sZZ).1 :=
  claim_c9_idempotent wOne sZZ rfl

/-- Claim C10: a normal return of get_proxy_list is never the empty list,
so the empty-list guard at the start of get (the No proxies available
branch) is unreachable under every fetcher outcome. -/
theorem claim_c10_nonempty (w : World) (rep : Bool) (s : FreeProxy) :
    (∀ l, (get_proxy_list w rep s).1 = Except.ok l → l ≠ []) ∧
    (get w rep s).1 ≠ Except.error "No proxies available." :=
  ⟨fun l h => gpl_go_ok_ne_nil w _ s l h, get_go_not_unavailable w _ s⟩

/-- Witness for C10 at a concrete successful run. -/
theorem claim_c10_witness :
    ([recA, recB, recC] : List Proxy) ≠ [] ∧
    (get wThree false sPlain).1 ≠ Except.error "No proxies available." :=
  ⟨(claim_c10_nonempty wThree false sPlain).1 [recA, recB, recC] rfl,
   (claim_c10_nonempty wThree false sPlain).2⟩

end FP
